import Mathlib

/-
Verification of the tildemush server data model (server/tmserver/models.py).

The Python module defines peewee ORM models: UserAccount, Script,
ScriptRevision, Permission, GameObject, Contains, together with pre/post
save hooks.  This file is a shallow embedding of that module: database
tables become lists, rows become structures, ORM queries become list
operations, `with db.atomic()` becomes an explicit rollback wrapper on an
Except-valued body, and raised exceptions become Except.error values.
-/

namespace Tildemush

/-- A Python runtime value, as far as the `is_sanctum` assignment needs:
the field is declared as a BooleanField, but the assignment on line 98 of
models.py carries a trailing comma, so the value actually assigned is the
one-element tuple (True,) rather than the boolean True.  This type lets the
embedding record exactly which value the code stores; tuple elements are
booleans, which covers every value the module ever assigns. -/
inductive PyVal where
  | bool (b : Bool)
  | tuple (xs : List Bool)
deriving DecidableEq, Repr

/-- Errors raised by the module: UserValidationError, ClientException, and
store-level failures (template lookup failure from the scripting mixin,
uniqueness-constraint violations from the database). -/
inductive TMError where
  | userValidation (msg : String)
  | client (msg : String)
  | templateNotFound (obj_type : String)
  | integrity (msg : String)
deriving DecidableEq, Repr

/-- UserAccount row (models.py lines 22-32): username (unique), password,
updated_at (nullable), is_god flag.  Timestamps are modelled as naturals. -/
structure UserAccount where
  username : String
  password : String
  updated_at : Option Nat
  is_god : Bool
deriving DecidableEq, Repr

/-- The right-hand operand of UserAccount.__eq__ (models.py lines 61-64):
Python first tests hasattr(other, 'username'); an arbitrary object either
exposes a username attribute (any account does) or it does not. -/
inductive EqOperand where
  | acct (a : UserAccount)
  | nonAccount
deriving DecidableEq, Repr

/-- UserAccount.__eq__ (models.py lines 61-64): false when the other value
has no username attribute, otherwise username comparison only. -/
def UserAccount.eq (self : UserAccount) (other : EqOperand) : Bool :=
  match other with
  | .nonAccount => false
  | .acct a => self.username == a.username

/-- UserAccount.__hash__ (models.py lines 69-70): hash((self.username,)).
Python's hash of the 1-tuple is a function of the username alone; the
embedding keeps the tuple itself as the hash key. -/
def UserAccount.hash_key (self : UserAccount) : String :=
  self.username

/-- UserAccount._hash_password (models.py lines 34-35): replaces the stored
password with bcrypt.hashpw(password, gensalt()).  The salted one-way hash
is an external collaborator; it is passed in as an abstract function. -/
def UserAccount.hash_password (self : UserAccount) (hashpw : String → String) :
    UserAccount :=
  { self with password := hashpw self.password }

/-- pre_user_save hook (models.py lines 73-79): on a non-creating save set
updated_at to the current time; on the creating save, when the password is
truthy (non-empty), replace it with its hash. -/
def pre_user_save (hashpw : String → String) (now : Nat)
    (instance0 : UserAccount) (created : Bool) : UserAccount :=
  let instance1 := if !created then { instance0 with updated_at := some now }
                   else instance0
  if created && instance1.password != "" then instance1.hash_password hashpw
  else instance1

/-- BAD_USERNAME_CHARS_RE (models.py line 14): the character class of the
regex r'[\:\'";%]', i.e. colon, apostrophe (Char.ofNat 39), double quote
(Char.ofNat 34), semicolon, percent. -/
def BAD_USERNAME_CHARS : List Char :=
  [':', Char.ofNat 39, Char.ofNat 34, ';', '%']

/-- MIN_PASSWORD_LEN (models.py line 15). -/
def MIN_PASSWORD_LEN : Nat := 12

/-- re.search of BAD_USERNAME_CHARS_RE over a string: true iff some
character of the string is in the class. -/
def bad_username_chars_search (s : String) : Bool :=
  s.data.any (fun c => BAD_USERNAME_CHARS.contains c)

/-- UserAccount.validate (models.py lines 45-53), with the UserAccount
table passed explicitly: raise UserValidationError when the username is
taken, when it has a bad character, or when the password is shorter than
MIN_PASSWORD_LEN; otherwise return normally. -/
def UserAccount.validate (self : UserAccount)
    (user_accounts : List UserAccount) : Except TMError Unit :=
  if (user_accounts.filter (fun u => u.username == self.username)).length != 0 then
    Except.error (TMError.userValidation "username taken")
  else if bad_username_chars_search self.username then
    Except.error (TMError.userValidation "username has invalid character")
  else if self.password.length < MIN_PASSWORD_LEN then
    Except.error (TMError.userValidation "password too short")
  else
    Except.ok ()

/-- Script row (models.py lines 102-104): author foreign key (recorded by
the unique username) and name. -/
structure Script where
  id : Nat
  author_username : String
  name : String
deriving DecidableEq, Repr

/-- ScriptRevision row (models.py lines 107-109): code text and a foreign
key to its Script. -/
structure ScriptRevision where
  id : Nat
  code : String
  script_id : Nat
deriving DecidableEq, Repr

/-- pre_scriptrev_save hook (models.py lines 111-113): code is stripped of
leading and trailing whitespace before storage. -/
def pre_scriptrev_save (code : String) : String :=
  code.trimLeft.trimRight

/-- Permission row (models.py lines 116-138): four integer axes. -/
structure Permission where
  read : Nat
  write : Nat
  carry : Nat
  execute : Nat
deriving DecidableEq, Repr

/-- Permission.OWNER (models.py line 132). -/
def Permission.OWNER : Nat := 1

/-- Permission.WORLD (models.py line 133). -/
def Permission.WORLD : Nat := 2

/-- The four permission axes of a game object. -/
inductive PermAxis where
  | read
  | write
  | carry
  | execute
deriving DecidableEq, Repr

/-- getattr(perms, axis) for the four axis names. -/
def Permission.get (p : Permission) : PermAxis → Nat
  | .read => p.read
  | .write => p.write
  | .carry => p.carry
  | .execute => p.execute

/-- The field defaults of the Permission model (models.py lines 135-138):
read=WORLD, write=OWNER, carry=WORLD, execute=WORLD.  Permission.create()
with no arguments produces exactly this row. -/
def Permission.default : Permission :=
  { read := Permission.WORLD, write := Permission.OWNER,
    carry := Permission.WORLD, execute := Permission.WORLD }

/-- GameObject row (models.py lines 141-148): author foreign key, unique
shortname, nullable script_revision foreign key (carried inline), the two
boolean flags, and the nullable perms foreign key (the Permission row
carried inline, 1:1).  is_sanctum holds a PyVal because the code assigns a
tuple to it (see PyVal).  The opaque JSON data blob plays no role in any
verified property and is omitted. -/
structure GameObject where
  id : Nat
  author : UserAccount
  shortname : String
  script_revision : Option ScriptRevision
  is_player_obj : Bool
  is_sanctum : PyVal
  perms : Option Permission
deriving DecidableEq, Repr

/-- Contains row (models.py lines 254-256): a directed outer-contains-inner
edge between two game objects. -/
structure Contains where
  outer_obj : GameObject
  inner_obj : GameObject
deriving DecidableEq, Repr

/-- GameObject.contained_by (models.py lines 187-194), with the Contains
table passed explicitly.  The query Contains.inner_obj == self compares the
foreign-key column, i.e. the row id.  Empty result: None.  More than one
row: ClientException.  Exactly one row: its outer object. -/
def GameObject.contained_by (self : GameObject) (contains_tbl : List Contains) :
    Except TMError (Option GameObject) :=
  let model_set := contains_tbl.filter (fun c => c.inner_obj.id == self.id)
  if model_set.isEmpty then
    Except.ok none
  else if model_set.length > 1 then
    Except.error (TMError.client "Bad state: contained by multiple things.")
  else
    Except.ok (model_set.head?.map (fun c => c.outer_obj))

/-- UserAccount.player_obj (models.py lines 55-59), with the GameObject
table passed explicitly.  GameObject.get_or_none executes the filtered
query and returns its first row, or None when there is no row; it never
raises on multiple rows. -/
def UserAccount.player_obj (self : UserAccount)
    (game_objects : List GameObject) : Option GameObject :=
  (game_objects.filter
    (fun g => g.author.username == self.username && g.is_player_obj)).head?

/-- GameObject._can_perm (models.py lines 214-216):
author == target.author or getattr(target.perms, perm) == WORLD.
The author comparison is UserAccount.__eq__, hence username equality, and
is short-circuited before perms is touched; when the authors differ and
perms is unset (None), Python raises AttributeError, modelled as none. -/
def GameObject.can_perm (self : GameObject) (perm : PermAxis)
    (target_obj : GameObject) : Option Bool :=
  if self.author.eq (EqOperand.acct target_obj.author) then some true
  else
    match target_obj.perms with
    | none => none
    | some p => some (p.get perm == Permission.WORLD)

/-- GameObject.can_carry (models.py lines 202-203). -/
def GameObject.can_carry (self target_obj : GameObject) : Option Bool :=
  self.can_perm PermAxis.carry target_obj

/-- GameObject.can_read (models.py lines 205-206). -/
def GameObject.can_read (self target_obj : GameObject) : Option Bool :=
  self.can_perm PermAxis.read target_obj

/-- GameObject.can_write (models.py lines 208-209). -/
def GameObject.can_write (self target_obj : GameObject) : Option Bool :=
  self.can_perm PermAxis.write target_obj

/-- GameObject.can_execute (models.py lines 211-212). -/
def GameObject.can_execute (self target_obj : GameObject) : Option Bool :=
  self.can_perm PermAxis.execute target_obj

/-- The revision identifier used by GameObject.__eq__ and __hash__
(models.py lines 224-244): the current script revision's id, or the
sentinel -1 when the object has no revision. -/
def GameObject.revision_sentinel (self : GameObject) : Int :=
  match self.script_revision with
  | some r => (r.id : Int)
  | none => -1

/-- GameObject.__eq__ (models.py lines 224-234): equality of the triple
(author username, shortname, revision id or sentinel). -/
def GameObject.eq (self other : GameObject) : Bool :=
  self.author.username == other.author.username
    && self.shortname == other.shortname
    && self.revision_sentinel == other.revision_sentinel

/-- GameObject.__hash__ (models.py lines 239-244): the hash is computed
from the tuple (author username, shortname, revision id or sentinel); the
embedding keeps the tuple itself as the hash key. -/
def GameObject.hash_triple (self : GameObject) : String × String × Int :=
  (self.author.username, self.shortname, self.revision_sentinel)

/-- The database state touched by the creation paths: the Script,
ScriptRevision and GameObject tables plus the id sequence.  Permission rows
live inline in their owning GameObject (the 1:1 perms foreign key). -/
structure DB where
  next_id : Nat
  scripts : List Script
  script_revisions : List ScriptRevision
  game_objects : List GameObject
deriving DecidableEq, Repr

/-- The empty database. -/
def DB.empty : DB :=
  { next_id := 1, scripts := [], script_revisions := [], game_objects := [] }

/-- Script.create (models.py lines 160-162): insert a Script row. -/
def DB.insert_script (db : DB) (author : UserAccount) (name : String) :
    DB × Script :=
  let script : Script :=
    { id := db.next_id, author_username := author.username, name := name }
  ({ db with next_id := db.next_id + 1, scripts := db.scripts ++ [script] },
   script)

/-- ScriptRevision.create (models.py lines 163-165), with the
pre_scriptrev_save hook applied to the code text before storage. -/
def DB.insert_script_revision (db : DB) (script : Script) (code : String) :
    DB × ScriptRevision :=
  let scriptrev : ScriptRevision :=
    { id := db.next_id, code := pre_scriptrev_save code, script_id := script.id }
  ({ db with next_id := db.next_id + 1,
             script_revisions := db.script_revisions ++ [scriptrev] },
   scriptrev)

/-- on_game_object_create post-save hook (models.py lines 247-251): on the
creating save, attach a freshly created Permission row (all field defaults)
to the object; on any other save do nothing. -/
def on_game_object_create (instance0 : GameObject) (created : Bool) :
    GameObject :=
  if !created then instance0
  else { instance0 with perms := some Permission.default }

/-- GameObject.create (models.py lines 166-170) followed by its post-save
hook: fails with an integrity error when the unique shortname column
already holds the given shortname, otherwise inserts the row (author,
shortname, script revision) and lets on_game_object_create attach the
default Permission row. -/
def DB.insert_game_object (db : DB) (author : UserAccount) (shortname : String)
    (scriptrev : ScriptRevision) : Except TMError (DB × GameObject) :=
  if db.game_objects.any (fun g => g.shortname == shortname) then
    Except.error (TMError.integrity "duplicate shortname")
  else
    let game_obj0 : GameObject :=
      { id := db.next_id, author := author, shortname := shortname,
        script_revision := some scriptrev, is_player_obj := false,
        is_sanctum := PyVal.bool false, perms := none }
    let game_obj := on_game_object_create game_obj0 true
    Except.ok
      ({ db with next_id := db.next_id + 1,
                 game_objects := db.game_objects ++ [game_obj] },
       game_obj)

/-- instance.save() on an already-persisted GameObject: replace the row
with the same id.  The post-save hook fires with created = False and does
nothing. -/
def DB.save_game_object (db : DB) (g : GameObject) : DB :=
  { db with game_objects :=
      db.game_objects.map (fun x => if x.id == g.id then g else x) }

/-- with config.get_db().atomic(): run the body; on success keep its final
state, on any raised error roll the state back to the state at entry. -/
def run_atomic {α : Type} (db : DB)
    (body : DB → Except TMError (DB × α)) : DB × Except TMError α :=
  match body db with
  | Except.ok (db2, a) => (db2, Except.ok a)
  | Except.error e => (db, Except.error e)

/-- GameObject.create_scripted_object (models.py lines 150-173).  The
template lookup (get_template on the scripting mixin, an external
collaborator passed in as a function) happens before the transaction; the
Script, ScriptRevision and GameObject inserts happen inside one atomic
block, so a failing insert leaves no trace of the earlier ones.
init_scripting is an external collaborator invoked on the fully built
object and does not touch these tables. -/
def GameObject.create_scripted_object (db : DB)
    (templates : String → Option String) (obj_type : String)
    (author : UserAccount) (shortname : String) :
    DB × Except TMError GameObject :=
  match templates obj_type with
  | none => (db, Except.error (TMError.templateNotFound obj_type))
  | some script_code =>
    run_atomic db (fun db0 =>
      let sres := db0.insert_script author shortname
      let rres := sres.1.insert_script_revision sres.2 script_code
      match rres.1.insert_game_object author shortname rres.2 with
      | Except.error e => Except.error e
      | Except.ok (db3, game_obj) => Except.ok (db3, game_obj))

/-- on_user_account_create post-save hook (models.py lines 82-99): on the
creating save of a UserAccount, inside one atomic block, create the player
object, set its is_player_obj flag to True and save it, then create the
sanctum room, assign its is_sanctum flag and save it.  Line 98 of the
source reads sanctum.is_sanctum=True, with a trailing comma, so the value
assigned is the one-element tuple (True,). -/
def on_user_account_create (templates : String → Option String) (db : DB)
    (instance0 : UserAccount) (created : Bool) : DB × Except TMError Unit :=
  if !created then (db, Except.ok ())
  else
    run_atomic db (fun db0 =>
      let pres := GameObject.create_scripted_object db0 templates "player"
        instance0 instance0.username
      match pres.2 with
      | Except.error e => Except.error e
      | Except.ok player0 =>
        let player := { player0 with is_player_obj := true }
        let db2 := pres.1.save_game_object player
        let sres := GameObject.create_scripted_object db2 templates "room"
          instance0 (instance0.username ++ "-sanctum")
        match sres.2 with
        | Except.error e => Except.error e
        | Except.ok sanctum0 =>
          let sanctum :=
            { sanctum0 with is_sanctum := PyVal.tuple [true] }
          let db4 := sres.1.save_game_object sanctum
          Except.ok (db4, ()))

/-! Concrete fixtures used by witnesses and counterexamples. -/

/-- A sample account as it stands before its creating save. -/
def alice : UserAccount :=
  { username := "alice", password := "supersecretpw1", updated_at := none,
    is_god := false }

/-- A second sample account. -/
def bob : UserAccount :=
  { username := "bob", password := "anotherlongpw99", updated_at := none,
    is_god := false }

/-- An account sharing alice's username but nothing else. -/
def alice_variant : UserAccount :=
  { username := "alice", password := "differentpass", updated_at := some 5,
    is_god := true }

/-- An account whose username contains a disallowed colon. -/
def colon_user : UserAccount :=
  { username := "a:b", password := "supersecretpw1", updated_at := none,
    is_god := false }

/-- A sample game object owned by alice with default permissions. -/
def ball : GameObject :=
  { id := 10, author := alice, shortname := "ball", script_revision := none,
    is_player_obj := false, is_sanctum := PyVal.bool false,
    perms := some Permission.default }

/-- A sample player object owned by bob. -/
def bob_avatar : GameObject :=
  { id := 11, author := bob, shortname := "bob", script_revision := none,
    is_player_obj := true, is_sanctum := PyVal.bool false,
    perms := some Permission.default }

/-- A template table holding the player and room templates the account
creation hook renders. -/
def demo_templates : String → Option String :=
  fun t => if t == "player" || t == "room" then some "witch code" else none

/-- A sample script revision row. -/
def demo_rev : ScriptRevision :=
  { id := 99, code := "witch code", script_id := 98 }

/-- The game object produced by inserting "ball" into the empty database. -/
def c4_ball : GameObject :=
  { id := 1, author := alice, shortname := "ball",
    script_revision := some demo_rev, is_player_obj := false,
    is_sanctum := PyVal.bool false, perms := some Permission.default }

/-- The database state after inserting "ball" into the empty database. -/
def c4_db : DB :=
  { next_id := 2, scripts := [], script_revisions := [],
    game_objects := [c4_ball] }

/-- A sample container object owned by alice. -/
def box : GameObject :=
  { id := 12, author := alice, shortname := "box", script_revision := none,
    is_player_obj := false, is_sanctum := PyVal.bool false,
    perms := some Permission.default }

/-- A sample room object owned by bob. -/
def room_obj : GameObject :=
  { id := 13, author := bob, shortname := "den", script_revision := none,
    is_player_obj := false, is_sanctum := PyVal.bool false,
    perms := some Permission.default }

/-- A containment edge: the room holds the ball. -/
def edge_room_ball : Contains :=
  { outer_obj := room_obj, inner_obj := ball }

/-- A second containment edge for the same inner object: the box also
holds the ball, which violates the single-parent invariant. -/
def edge_box_ball : Contains :=
  { outer_obj := box, inner_obj := ball }

/-- A first player object for alice. -/
def avatar_one : GameObject :=
  { id := 21, author := alice, shortname := "alice", script_revision := none,
    is_player_obj := true, is_sanctum := PyVal.bool false,
    perms := some Permission.default }

/-- A second player object for alice: two avatars for one account is the
inconsistent state claim C6 talks about. -/
def avatar_two : GameObject :=
  { id := 22, author := alice, shortname := "alice2", script_revision := none,
    is_player_obj := true, is_sanctum := PyVal.bool false,
    perms := some Permission.default }

/-- A value-equal copy of the ball with a different row id and perms. -/
def ball_copy : GameObject :=
  { ball with id := 77, perms := none }

/-- The database produced by alice's creating save: the post-save hook run
on the empty database with the demo templates. -/
def alice_db : DB :=
  (on_user_account_create demo_templates DB.empty alice true).1

/-! Theorems, one per claim. -/

/-- Claim C1: for every axis in read, write, carry, execute and every pair
of game objects whose target carries a Permission record, _can_perm
returns true when the two owning accounts coincide (username equality, by
UserAccount.__eq__), and otherwise returns true exactly when the target's
value for that axis is WORLD.  The embedding is a pure function, so the
check has no side effects by construction. -/
theorem claim_C1_can_perm (axis : PermAxis) (actor target : GameObject)
    (p : Permission) (h : target.perms = some p) :
    actor.can_perm axis target =
      some ((actor.author.username == target.author.username) ||
            (p.get axis == Permission.WORLD)) := by
  unfold GameObject.can_perm UserAccount.eq
  rw [h]
  by_cases hb : actor.author.username == target.author.username
  · simp [hb]
  · simp [hb]

/-- Witness for claim C1: bob's avatar probing the write axis of alice's
ball, which carries the default Permission record. -/
theorem claim_C1_can_perm_witness :
    ball.perms = some Permission.default ∧
    bob_avatar.can_perm PermAxis.write ball =
      some ((bob_avatar.author.username == ball.author.username) ||
            (Permission.default.get PermAxis.write == Permission.WORLD)) :=
  ⟨rfl, claim_C1_can_perm PermAxis.write bob_avatar ball Permission.default rfl⟩

/-- Claim C2: validation succeeds exactly when the username is not already
taken in the UserAccount table, the username has none of the disallowed
characters, and the password has at least MIN_PASSWORD_LEN characters; and
every failure is a UserValidationError. -/
theorem claim_C2_validate (tbl : List UserAccount) (a : UserAccount) :
    (a.validate tbl = Except.ok () ↔
      ((∀ u ∈ tbl, u.username ≠ a.username) ∧
       (∀ c ∈ a.username.data, c ∉ BAD_USERNAME_CHARS) ∧
       MIN_PASSWORD_LEN ≤ a.password.length)) ∧
    (∀ e, a.validate tbl = Except.error e →
      ∃ msg, e = TMError.userValidation msg) := by
  have h1 : ((tbl.filter (fun u => u.username == a.username)).length != 0) = true ↔
      ¬ (∀ u ∈ tbl, u.username ≠ a.username) := by
    simp [List.filter_eq_nil_iff, List.length_eq_zero]
  have h2 : bad_username_chars_search a.username = true ↔
      ¬ (∀ c ∈ a.username.data, c ∉ BAD_USERNAME_CHARS) := by
    simp [bad_username_chars_search, List.any_eq_true]
  unfold UserAccount.validate
  split_ifs with hc1 hc2 hc3
  · refine ⟨⟨fun hco => absurd hco (by simp), fun hr => absurd hr.1 (h1.mp hc1)⟩,
      fun e he => ⟨"username taken", by injection he with h; exact h.symm⟩⟩
  · refine ⟨⟨fun hco => absurd hco (by simp), fun hr => absurd hr.2.1 (h2.mp hc2)⟩,
      fun e he =>
        ⟨"username has invalid character", by injection he with h; exact h.symm⟩⟩
  · refine ⟨⟨fun hco => absurd hco (by simp), fun hr => absurd hr.2.2 (by omega)⟩,
      fun e he => ⟨"password too short", by injection he with h; exact h.symm⟩⟩
  · refine ⟨⟨fun _ => ⟨?_, ?_, by omega⟩, fun _ => rfl⟩, fun e he => absurd he (by simp)⟩
    · by_contra hco
      exact hc1 (h1.mpr hco)
    · by_contra hco
      exact hc2 (h2.mpr hco)

/-- Witness for claim C2: alice validates cleanly against an empty account
table, and the colon user's failure is a UserValidationError. -/
theorem claim_C2_validate_witness :
    alice.validate [] = Except.ok () ∧
    (∃ msg, TMError.userValidation "username has invalid character" =
      TMError.userValidation msg) := by
  constructor
  · exact (claim_C2_validate [] alice).1.mpr ⟨by simp, by decide, by decide⟩
  · exact (claim_C2_validate [] colon_user).2 _ rfl

/-- Claim C9: UserAccount equality is determined by the username alone —
two accounts with equal usernames compare equal whatever their passwords,
is_god flags or timestamps; a value without a username attribute compares
unequal; and the hash key is derived from the username only, so equal
accounts hash equally. -/
theorem claim_C9_account_equality (a b : UserAccount) :
    (a.eq (EqOperand.acct b) = true ↔ a.username = b.username) ∧
    a.eq EqOperand.nonAccount = false ∧
    (a.eq (EqOperand.acct b) = true → a.hash_key = b.hash_key) := by
  refine ⟨?_, rfl, ?_⟩
  · simp [UserAccount.eq]
  · intro h
    simp only [UserAccount.eq, beq_iff_eq] at h
    simpa [UserAccount.hash_key] using h

/-- Witness for claim C9: alice equals a value sharing only her username,
and their hash keys agree. -/
theorem claim_C9_account_equality_witness :
    alice.eq (EqOperand.acct alice_variant) = true ∧
    alice.hash_key = alice_variant.hash_key := by
  have h := claim_C9_account_equality alice alice_variant
  have he : alice.eq (EqOperand.acct alice_variant) = true := h.1.mpr rfl
  exact ⟨he, h.2.2 he⟩

/-- Claim C10: the pre-save hook hashes the password only on the creating
save and only when the password is non-empty; a non-creating save leaves
the password exactly as supplied and sets updated_at, while the creating
save leaves updated_at untouched. -/
theorem claim_C10_password_hashing (hashpw : String → String) (now : Nat)
    (a : UserAccount) :
    ((pre_user_save hashpw now a false).password = a.password ∧
     (pre_user_save hashpw now a false).updated_at = some now) ∧
    (a.password ≠ "" →
      (pre_user_save hashpw now a true).password = hashpw a.password) ∧
    (pre_user_save hashpw now a true).updated_at = a.updated_at ∧
    (a.password = "" → pre_user_save hashpw now a true = a) := by
  refine ⟨⟨?_, ?_⟩, ?_, ?_, ?_⟩
  · simp [pre_user_save]
  · simp [pre_user_save]
  · intro h
    simp [pre_user_save, UserAccount.hash_password, h]
  · by_cases h : a.password = ""
    · simp [pre_user_save, h]
    · simp [pre_user_save, UserAccount.hash_password, h]
  · intro h
    simp [pre_user_save, h]

/-- Witness for claim C10: alice's creating save hashes her non-empty
password with the supplied hash function. -/
theorem claim_C10_password_hashing_witness :
    alice.password ≠ "" ∧
    (pre_user_save (fun s => s ++ "#salted") 7 alice true).password =
      alice.password ++ "#salted" := by
  have h : alice.password ≠ "" := by decide
  exact ⟨h,
    (claim_C10_password_hashing (fun s => s ++ "#salted") 7 alice).2.1 h⟩


/-- Claim C4: a successfully created GameObject always carries exactly one
Permission record — the hook attaches one on the creating save, so perms is
never left unset — and the record's defaults are read=WORLD, write=OWNER,
carry=WORLD, execute=WORLD. -/
theorem claim_C4_access_control (db : DB) (author : UserAccount)
    (shortname : String) (rev : ScriptRevision) (db2 : DB) (g : GameObject)
    (h : db.insert_game_object author shortname rev = Except.ok (db2, g)) :
    g.perms = some Permission.default ∧
    Permission.default.read = Permission.WORLD ∧
    Permission.default.write = Permission.OWNER ∧
    Permission.default.carry = Permission.WORLD ∧
    Permission.default.execute = Permission.WORLD := by
  refine ⟨?_, rfl, rfl, rfl, rfl⟩
  unfold DB.insert_game_object at h
  by_cases hc : (db.game_objects.any fun g0 => g0.shortname == shortname) = true
  · rw [if_pos hc] at h
    exact absurd h (by simp)
  · rw [if_neg hc] at h
    simp only [Except.ok.injEq, Prod.mk.injEq] at h
    obtain ⟨-, hg⟩ := h
    rw [← hg]
    simp [on_game_object_create]

/-- Witness for claim C4: inserting the ball into the empty database. -/
theorem claim_C4_access_control_witness :
    DB.empty.insert_game_object alice "ball" demo_rev =
      Except.ok (c4_db, c4_ball) ∧
    c4_ball.perms = some Permission.default := by
  have heq : DB.empty.insert_game_object alice "ball" demo_rev =
      Except.ok (c4_db, c4_ball) := by rfl
  exact ⟨heq,
    (claim_C4_access_control DB.empty alice "ball" demo_rev c4_db c4_ball heq).1⟩

/-- Claim C5: contained_by returns none when the object has no inbound
containment edge, returns the unique outer object when it has exactly one,
and raises the ClientException rather than picking a parent when more than
one inbound edge exists. -/
theorem claim_C5_contained_by (tbl : List Contains) (obj : GameObject) :
    (tbl.filter (fun c => c.inner_obj.id == obj.id) = [] →
      obj.contained_by tbl = Except.ok none) ∧
    (∀ c, tbl.filter (fun c2 => c2.inner_obj.id == obj.id) = [c] →
      obj.contained_by tbl = Except.ok (some c.outer_obj)) ∧
    (1 < (tbl.filter (fun c => c.inner_obj.id == obj.id)).length →
      obj.contained_by tbl =
        Except.error (TMError.client "Bad state: contained by multiple things.")) := by
  refine ⟨?_, ?_, ?_⟩
  · intro h
    simp [GameObject.contained_by, h]
  · intro c h
    simp [GameObject.contained_by, h]
  · intro h
    have h0 : (tbl.filter (fun c => c.inner_obj.id == obj.id)).isEmpty = false := by
      cases hf : tbl.filter (fun c => c.inner_obj.id == obj.id) with
      | nil => rw [hf] at h; simp at h
      | cons x xs => simp
    simp [GameObject.contained_by, h0, h]

/-- Witness for claim C5: the ball with no edge, with its single room edge,
and with two conflicting edges. -/
theorem claim_C5_contained_by_witness :
    ball.contained_by [] = Except.ok none ∧
    ball.contained_by [edge_room_ball] = Except.ok (some room_obj) ∧
    ball.contained_by [edge_room_ball, edge_box_ball] =
      Except.error (TMError.client "Bad state: contained by multiple things.") :=
  ⟨(claim_C5_contained_by [] ball).1 rfl,
   (claim_C5_contained_by [edge_room_ball] ball).2.1 edge_room_ball (by decide),
   (claim_C5_contained_by [edge_room_ball, edge_box_ball] ball).2.2 (by decide)⟩

/-- Counterexample for claim C6: with two is_player_obj rows for alice in
the table, player_obj (get_or_none) silently returns the first matching
row instead of raising — the filtered set has two elements, yet the call
returns normally with one of them. -/
theorem claim_C6_counterexample :
    (([avatar_one, avatar_two] : List GameObject).filter
      (fun g => g.author.username == alice.username && g.is_player_obj)).length = 2 ∧
    alice.player_obj [avatar_one, avatar_two] = some avatar_one := by
  refine ⟨by decide, rfl⟩

/-- Claim C6 as amended: player_obj returns the account's first matching
is_player_obj object in query order, or none when there is none; when more
than one exists it silently returns the first rather than raising. -/
theorem claim_C6_player_obj (tbl : List GameObject) (a : UserAccount) :
    (tbl.filter (fun g => g.author.username == a.username && g.is_player_obj) = [] →
      a.player_obj tbl = none) ∧
    (∀ g rest,
      tbl.filter (fun g2 => g2.author.username == a.username && g2.is_player_obj) =
        g :: rest →
      a.player_obj tbl = some g) := by
  constructor
  · intro h
    simp [UserAccount.player_obj, h]
  · intro g rest h
    simp [UserAccount.player_obj, h]

/-- Witness for claim C6 as amended: bob with an empty table and with his
single avatar. -/
theorem claim_C6_player_obj_witness :
    bob.player_obj [] = none ∧
    bob.player_obj [bob_avatar] = some bob_avatar :=
  ⟨(claim_C6_player_obj [] bob).1 rfl,
   (claim_C6_player_obj [bob_avatar] bob).2 bob_avatar [] (by decide)⟩

/-- Claim C7: two game objects are equal exactly when they agree on owning
account username, shortname and revision identifier (with the sentinel -1
when an object has no revision), and the hash key is computed from that
same triple, so equal objects have equal hash keys. -/
theorem claim_C7_identity (a b : GameObject) :
    (GameObject.eq a b = true ↔
      (a.author.username = b.author.username ∧ a.shortname = b.shortname ∧
       a.revision_sentinel = b.revision_sentinel)) ∧
    (a.script_revision = none → a.revision_sentinel = -1) ∧
    (GameObject.eq a b = true → a.hash_triple = b.hash_triple) := by
  refine ⟨?_, ?_, ?_⟩
  · simp [GameObject.eq, and_assoc]
  · intro h
    simp [GameObject.revision_sentinel, h]
  · intro h
    simp only [GameObject.eq, Bool.and_eq_true, beq_iff_eq] at h
    obtain ⟨⟨h1, h2⟩, h3⟩ := h
    simp [GameObject.hash_triple, h1, h2, h3]

/-- Witness for claim C7: the ball and its copy differ in row id and perms
yet are equal and share the hash triple. -/
theorem claim_C7_identity_witness :
    GameObject.eq ball ball_copy = true ∧
    ball.hash_triple = ball_copy.hash_triple := by
  have h := claim_C7_identity ball ball_copy
  have he : GameObject.eq ball ball_copy = true := h.1.mpr ⟨rfl, rfl, rfl⟩
  exact ⟨he, h.2.2 he⟩

/-- Claim C3, evaluated at the failing input: alice's creating save on a
fresh database succeeds and spawns exactly two game objects owned by
alice — the player object (is_player_obj true, and player_obj finds it)
and the sanctum — but the sanctum's is_sanctum field holds the one-element
tuple (True,) produced by the trailing comma on models.py line 98, not the
strict boolean True the spec requires; no object in the database has
is_sanctum equal to the strict boolean True. -/
theorem claim_C3_sanctum_flag :
    (on_user_account_create demo_templates DB.empty alice true).2 =
      Except.ok () ∧
    alice_db.game_objects.length = 2 ∧
    (∀ g ∈ alice_db.game_objects, g.author.username = alice.username) ∧
    alice.player_obj alice_db.game_objects = alice_db.game_objects.head? ∧
    alice_db.game_objects.map (fun g => g.is_player_obj) = [true, false] ∧
    alice_db.game_objects.map (fun g => g.is_sanctum) =
      [PyVal.bool false, PyVal.tuple [true]] ∧
    ¬ (∃ g ∈ alice_db.game_objects, g.is_sanctum = PyVal.bool true) := by
  refine ⟨rfl, rfl, by decide, rfl, rfl, rfl, by decide⟩

/-- Claim C8: create_scripted_object either commits the Script row, the
ScriptRevision row, the GameObject row and its Permission record together —
fully linked: the revision points at the script, the object points at the
revision and carries the default Permission record and the author — or
fails leaving the database exactly as it was. -/
theorem claim_C8_create_scripted_object (db : DB)
    (templates : String → Option String) (obj_type : String)
    (author : UserAccount) (shortname : String) :
    (∃ e, GameObject.create_scripted_object db templates obj_type author shortname =
        (db, Except.error e)) ∨
    (∃ db2 g scr rev,
      GameObject.create_scripted_object db templates obj_type author shortname =
        (db2, Except.ok g) ∧
      scr ∈ db2.scripts ∧ rev ∈ db2.script_revisions ∧ g ∈ db2.game_objects ∧
      scr.author_username = author.username ∧ scr.name = shortname ∧
      rev.script_id = scr.id ∧
      g.author = author ∧ g.shortname = shortname ∧
      g.script_revision = some rev ∧
      g.perms = some Permission.default) := by
  cases ht : templates obj_type with
  | none =>
    exact Or.inl ⟨TMError.templateNotFound obj_type,
      by simp [GameObject.create_scripted_object, ht]⟩
  | some code =>
    by_cases hc : (db.game_objects.any fun g0 => g0.shortname == shortname) = true
    · refine Or.inl ⟨TMError.integrity "duplicate shortname", ?_⟩
      simp [GameObject.create_scripted_object, ht, run_atomic, DB.insert_script,
        DB.insert_script_revision, DB.insert_game_object, hc]
    · have heq : GameObject.create_scripted_object db templates obj_type author shortname =
          ({ next_id := db.next_id + 3,
             scripts := db.scripts ++
               [{ id := db.next_id, author_username := author.username,
                  name := shortname }],
             script_revisions := db.script_revisions ++
               [{ id := db.next_id + 1, code := pre_scriptrev_save code,
                  script_id := db.next_id }],
             game_objects := db.game_objects ++
               [{ id := db.next_id + 2, author := author, shortname := shortname,
                  script_revision := some
                    { id := db.next_id + 1, code := pre_scriptrev_save code,
                      script_id := db.next_id },
                  is_player_obj := false, is_sanctum := PyVal.bool false,
                  perms := some Permission.default }] },
           Except.ok
             { id := db.next_id + 2, author := author, shortname := shortname,
               script_revision := some
                 { id := db.next_id + 1, code := pre_scriptrev_save code,
                   script_id := db.next_id },
               is_player_obj := false, is_sanctum := PyVal.bool false,
               perms := some Permission.default }) := by
        simp [GameObject.create_scripted_object, ht, run_atomic, DB.insert_script,
          DB.insert_script_revision, DB.insert_game_object, hc,
          on_game_object_create]
      exact Or.inr ⟨_, _,
        { id := db.next_id, author_username := author.username, name := shortname },
        { id := db.next_id + 1, code := pre_scriptrev_save code,
          script_id := db.next_id },
        heq, by simp, by simp, by simp, rfl, rfl, rfl, rfl, rfl, rfl, rfl⟩

end Tildemush
